import Mathlib

/-!
Verification of `create_flask_project.py` (interactive Flask project
scaffolding tool).  The definitions below are a shallow embedding of the
script's core engine: environment/prerequisite checks, interactive prompt
consumption, target-directory conflict resolution, the template catalog
(paths plus the parameters each rendered payload interpolates), the
trailing-newline normalization of `write_text`, the workflow finalizers
(`write_requirements`, `write_poetry_files`, `ensure_poetry_alias`) and the
driver `main`.

Literal template prose (README body, HTML/CSS/JS boilerplate, generated
Python source) is represented by an opaque `Payload` constructor carrying
exactly the parameter strings the source interpolates into that file; the
spec itself declares these literal contents opaque payloads outside the
core.  For the files whose exact bytes the claims depend on (LICENSE and
pyproject.toml) a full byte-level renderer is given as well.
-/

/-! ### Python string primitives used by the script -/

/-- Model of Python's `s.strip()` as used on every `input(...)` result:
remove leading and trailing whitespace (implemented over the character
list so that all proofs can evaluate it). -/
def pyStrip (s : String) : String :=
  String.mk (((s.data.dropWhile Char.isWhitespace).reverse.dropWhile
    Char.isWhitespace).reverse)

/-- Model of Python's `s.lower()` (ASCII arguments only in this script). -/
def pyLower (s : String) : String := String.mk (s.data.map Char.toLower)

/-- Model of Python's `s.startswith(pre)`: first argument is the string's
characters, second the pattern's. -/
def startsWithChars : List Char → List Char → Bool
  | _, [] => true
  | [], _ :: _ => false
  | c :: cs, p :: ps => c == p && startsWithChars cs ps

/-- Model of Python's `content.rstrip("\n")` (src line 188, 1693): remove
every trailing newline character, leaving the rest of the string intact. -/
def rstripNl (s : String) : String :=
  String.mk ((s.data.reverse.dropWhile (fun c => c == '\n')).reverse)

/-- Split a character list at every newline, keeping the (possibly empty)
final segment: the splitting underlying Python's `str.splitlines` for
newline-separated text. -/
def splitNl : List Char → List (List Char)
  | [] => [[]]
  | c :: rest =>
    if c == '\n' then [] :: splitNl rest
    else
      match splitNl rest with
      | [] => [[c]]
      | l :: ls => (c :: l) :: ls

/-- Drop the final segment produced by `splitNl` when it is empty: Python's
`splitlines` does not report a final empty line after a trailing newline. -/
def dropTrailingEmpty : List (List Char) → List (List Char)
  | [] => []
  | [x] => if x == ([] : List Char) then [] else [x]
  | x :: y :: xs => x :: dropTrailingEmpty (y :: xs)

/-- Model of Python's `content.splitlines()` (src line 1686) for
newline-separated text. -/
def pySplitlines (s : String) : List String :=
  (dropTrailingEmpty (splitNl s.data)).map (fun cs => String.mk cs)

/-! ### `write_text` (src lines 186-189)

`write_text` writes `content.rstrip("\n") + "\n"`: the content with its
trailing newlines normalized to exactly one. -/

/-- Bytes written to disk by `write_text(path, content)` (src line 188). -/
def write_text_content (content : String) : String := rstripNl content ++ "\n"

/-! ### Helper lemmas about `rstripNl` -/

theorem head?_dropWhile_false (p : α → Bool) :
    ∀ (l : List α) (a : α), (l.dropWhile p).head? = some a → p a = false := by
  intro l
  induction l with
  | nil => intro a h; simp [List.dropWhile] at h
  | cons x xs ih =>
    intro a h
    by_cases hx : p x
    · rw [List.dropWhile_cons_of_pos hx] at h
      exact ih a h
    · rw [List.dropWhile_cons_of_neg hx] at h
      simp only [List.head?_cons, Option.some.injEq] at h
      subst h
      exact Bool.eq_false_iff.mpr hx

theorem mem_takeWhile_sat (p : α → Bool) :
    ∀ (l : List α) (a : α), a ∈ l.takeWhile p → p a = true := by
  intro l
  induction l with
  | nil => intro a h; simp [List.takeWhile] at h
  | cons x xs ih =>
    intro a h
    by_cases hx : p x
    · rw [List.takeWhile_cons_of_pos hx] at h
      rcases List.mem_cons.mp h with h | h
      · subst h; exact hx
      · exact ih a h
    · rw [List.takeWhile_cons_of_neg hx] at h
      simp at h

/-- Decomposition: every string is its newline-stripped core followed by a
run of newlines. -/
theorem rstripNl_decomp (s : String) :
    ∃ k : Nat, s.data = (rstripNl s).data ++ List.replicate k '\n' := by
  refine ⟨(s.data.reverse.takeWhile (fun c => c == '\n')).length, ?_⟩
  show s.data = (s.data.reverse.dropWhile (fun c => c == '\n')).reverse ++
      List.replicate (s.data.reverse.takeWhile (fun c => c == '\n')).length '\n'
  generalize s.data = l
  conv_lhs => rw [← List.reverse_reverse l]
  generalize l.reverse = r
  have h := List.takeWhile_append_dropWhile (p := fun c => c == '\n') (l := r)
  have h3 : (r.takeWhile (fun c => c == '\n')).reverse =
      List.replicate (r.takeWhile (fun c => c == '\n')).length '\n' := by
    have hall : ∀ b ∈ (r.takeWhile (fun c => c == '\n')).reverse, b = '\n' :=
      fun b hb => eq_of_beq (mem_takeWhile_sat _ _ b (List.mem_reverse.mp hb))
    have h4 := List.eq_replicate_of_mem hall
    rw [h4, List.length_reverse]
  calc r.reverse
      = (r.takeWhile (fun c => c == '\n') ++ r.dropWhile (fun c => c == '\n')).reverse := by
        rw [h]
    _ = (r.dropWhile (fun c => c == '\n')).reverse ++
          (r.takeWhile (fun c => c == '\n')).reverse := by
        rw [List.reverse_append]
    _ = (r.dropWhile (fun c => c == '\n')).reverse ++
          List.replicate (r.takeWhile (fun c => c == '\n')).length '\n' := by
        rw [h3]

/-- The newline-stripped core never ends in a newline. -/
theorem rstripNl_no_trailing (s : String) :
    (rstripNl s).data.getLast? ≠ some '\n' := by
  intro h
  have h2 : (rstripNl s).data =
      (s.data.reverse.dropWhile (fun c => c == '\n')).reverse := rfl
  rw [h2, List.getLast?_reverse] at h
  have := head?_dropWhile_false (fun c => c == '\n') s.data.reverse '\n' h
  simp at this

/-- Claim C4: `write_text` writes its content with trailing newlines
normalized to exactly one: the input decomposes as a newline-free-tailed
core followed by trailing newlines, the written bytes are that core plus a
single newline (so nothing before the trailing newlines is altered and the
file ends in exactly one newline), and the empty string produces a file
consisting of a single newline. -/
theorem write_text_normalizes (s : String) :
    (∃ k : Nat, s.data = (rstripNl s).data ++ List.replicate k '\n')
    ∧ (write_text_content s).data = (rstripNl s).data ++ ['\n']
    ∧ (rstripNl s).data.getLast? ≠ some '\n'
    ∧ write_text_content "" = "\n" := by
  refine ⟨rstripNl_decomp s, ?_, rstripNl_no_trailing s, rfl⟩
  show (rstripNl s ++ "\n").data = (rstripNl s).data ++ ['\n']
  rfl

/-- Witness for C4: the theorem instantiated at the concrete content
"a\n\n\n", whose written form is "a\n". -/
theorem write_text_normalizes_witness :
    (∃ k : Nat, ("a\n\n\n" : String).data =
        (rstripNl "a\n\n\n").data ++ List.replicate k '\n')
    ∧ (write_text_content "a\n\n\n").data = (rstripNl "a\n\n\n").data ++ ['\n']
    ∧ (rstripNl "a\n\n\n").data.getLast? ≠ some '\n'
    ∧ write_text_content "" = "\n" :=
  write_text_normalizes "a\n\n\n"

/-! ### The poetry alias finalizer (`ensure_poetry_alias`, src lines 1663-1695)

The finalizer reads the shell startup file (if present), skips when some
line's stripped text starts with the alias key, and otherwise writes
`content.rstrip("\n") + "\n" + alias_line + "\n"`. -/

/-- The alias line appended by the finalizer (src line 1680). -/
def alias_line : String := "alias pf='poetry run flask'"

/-- The idempotence key scanned for (src line 1687). -/
def aliasKey : String := "alias pf="

/-- A line counts as an existing alias when its stripped text starts with
the alias key (src line 1687: `line.strip().startswith("alias pf=")`). -/
def isAliasLine (line : String) : Bool :=
  startsWithChars (pyStrip line).data aliasKey.data

/-- Scan of the startup-file content for an existing alias line
(src lines 1686-1689). -/
def containsAliasKey (content : String) : Bool :=
  (pySplitlines content).any isAliasLine

/-- Number of lines of `content` that begin (after stripping) with the
alias key. -/
def countAliasLines (content : String) : Nat :=
  ((pySplitlines content).filter isAliasLine).length

/-- The content written when the alias is appended (src line 1693). -/
def appendAliasContent (content : String) : String :=
  rstripNl content ++ "\n" ++ alias_line ++ "\n"

/-- Resulting startup-file content of one run of `ensure_poetry_alias`,
as a function of the prior content (`none` when the file does not exist),
src lines 1682-1694. -/
def ensure_poetry_alias_content : Option String → String
  | some content =>
    if containsAliasKey content then content else appendAliasContent content
  | none => appendAliasContent ""

/-! ### Lemmas about `splitNl` -/

theorem splitNl_ne_nil : ∀ cs : List Char, splitNl cs ≠ [] := by
  intro cs
  cases cs with
  | nil => simp [splitNl]
  | cons c rest =>
    by_cases hc : c == '\n'
    · simp [splitNl, hc]
    · simp only [splitNl, hc, if_false]
      cases splitNl rest <;> simp

theorem splitNl_append_nl :
    ∀ xs ys : List Char, splitNl (xs ++ '\n' :: ys) = splitNl xs ++ splitNl ys := by
  intro xs ys
  induction xs with
  | nil => simp [splitNl]
  | cons c rest ih =>
    rw [List.cons_append]
    by_cases hc : c == '\n'
    · have e1 : splitNl (c :: (rest ++ '\n' :: ys))
          = [] :: splitNl (rest ++ '\n' :: ys) := by
        simp [splitNl, hc]
      have e2 : splitNl (c :: rest) = [] :: splitNl rest := by
        simp [splitNl, hc]
      rw [e1, e2, ih]
      rfl
    · have e1 : splitNl (c :: (rest ++ '\n' :: ys))
          = match splitNl (rest ++ '\n' :: ys) with
            | [] => [[c]]
            | l :: ls => (c :: l) :: ls := by
        simp [splitNl, hc]
      have e2 : splitNl (c :: rest)
          = match splitNl rest with
            | [] => [[c]]
            | l :: ls => (c :: l) :: ls := by
        simp [splitNl, hc]
      rcases h : splitNl rest with _ | ⟨l, ls⟩
      · exact absurd h (splitNl_ne_nil rest)
      · rw [e1, e2, ih, h]
        rfl

theorem splitNl_replicate_nl :
    ∀ k : Nat, splitNl (List.replicate k '\n') = List.replicate (k + 1) [] := by
  intro k
  induction k with
  | zero => rfl
  | succ n ih =>
    have e : splitNl ('\n' :: List.replicate n '\n')
        = [] :: splitNl (List.replicate n '\n') := by
      simp [splitNl]
    calc splitNl (List.replicate (n + 1) '\n')
        = splitNl ('\n' :: List.replicate n '\n') := by rw [List.replicate_succ]
      _ = [] :: splitNl (List.replicate n '\n') := e
      _ = [] :: List.replicate (n + 1) [] := by rw [ih]
      _ = List.replicate (n + 1 + 1) [] := rfl

theorem splitNl_append_replicate_nl (xs : List Char) :
    ∀ k : Nat, splitNl (xs ++ List.replicate k '\n')
      = splitNl xs ++ List.replicate k [] := by
  intro k
  cases k with
  | zero => simp
  | succ n =>
    rw [List.replicate_succ, splitNl_append_nl, splitNl_replicate_nl]

/-! ### Counting alias lines through the full newline split -/

/-- Count of alias lines over the full newline split (with the trailing
empty segment kept); proof-side companion of `countAliasLines`. -/
def countFull (cs : List Char) : Nat :=
  (((splitNl cs).map (fun x => String.mk x)).filter isAliasLine).length

theorem isAliasLine_nil : isAliasLine "" = false := by decide

theorem filter_dropTrailingEmpty (l : List (List Char)) :
    ((dropTrailingEmpty l).map (fun x => String.mk x)).filter isAliasLine
      = (l.map (fun x => String.mk x)).filter isAliasLine := by
  induction l with
  | nil => rfl
  | cons x xs ih =>
    cases xs with
    | nil =>
      by_cases hx : x == ([] : List Char)
      · have hx' : x = ([] : List Char) := eq_of_beq hx
        subst hx'
        simp [dropTrailingEmpty, isAliasLine_nil]
      · simp [dropTrailingEmpty, hx]
    | cons y ys =>
      show ((x :: dropTrailingEmpty (y :: ys)).map (fun x => String.mk x)).filter
          isAliasLine = ((x :: y :: ys).map (fun x => String.mk x)).filter isAliasLine
      simp only [List.map_cons, List.filter_cons, ih]

theorem countAliasLines_eq_countFull (s : String) :
    countAliasLines s = countFull s.data := by
  unfold countAliasLines countFull pySplitlines
  rw [filter_dropTrailingEmpty]

theorem contains_false_iff_count_zero (s : String) :
    containsAliasKey s = false ↔ countAliasLines s = 0 := by
  unfold containsAliasKey countAliasLines
  rw [List.length_eq_zero, List.filter_eq_nil_iff]
  constructor
  · intro h a ha
    have := List.any_eq_false.mp h a ha
    simp [this]
  · intro h
    apply List.any_eq_false.mpr
    intro a ha
    simpa using h a ha

theorem countFull_append_nl (xs ys : List Char) :
    countFull (xs ++ '\n' :: ys) = countFull xs + countFull ys := by
  unfold countFull
  rw [splitNl_append_nl, List.map_append, List.filter_append, List.length_append]

theorem countFull_rstrip (s : String) :
    countFull s.data = countFull (rstripNl s).data := by
  obtain ⟨k, hk⟩ := rstripNl_decomp s
  rw [hk]
  unfold countFull
  rw [splitNl_append_replicate_nl, List.map_append, List.filter_append,
    List.length_append]
  have hnil : ((List.replicate k ([] : List Char)).map
      (fun x => String.mk x)).filter isAliasLine = [] := by
    apply List.filter_eq_nil_iff.mpr
    intro a ha
    rw [List.map_replicate] at ha
    have := List.eq_of_mem_replicate ha
    subst this
    simp [isAliasLine_nil]
  rw [hnil]
  simp

theorem str_data_append (a b : String) : (a ++ b).data = a.data ++ b.data := rfl

theorem appendAliasContent_data (s : String) :
    (appendAliasContent s).data
      = (rstripNl s).data ++ '\n' :: (alias_line.data ++ ['\n']) := by
  show ((rstripNl s ++ "\n" ++ alias_line ++ "\n")).data
      = (rstripNl s).data ++ '\n' :: (alias_line.data ++ ['\n'])
  rw [str_data_append, str_data_append, str_data_append]
  simp

theorem countFull_appendAlias (s : String) :
    countFull (appendAliasContent s).data = countFull (rstripNl s).data + 1 := by
  rw [appendAliasContent_data, countFull_append_nl]
  have halias : countFull (alias_line.data ++ ['\n']) = 1 := by decide
  rw [halias]

/-- Claim C6: the finalizer's alias append is idempotent.  If the startup
file already contains a line whose stripped text begins with the alias key,
the file is left unchanged; running the append step twice equals running it
once; and starting from a file with no alias line, one run produces exactly
one line beginning with the alias key (so two runs in succession can never
produce two such lines). -/
theorem ensure_poetry_alias_idem (s : String) :
    (containsAliasKey s = true → ensure_poetry_alias_content (some s) = s)
    ∧ ensure_poetry_alias_content (some (ensure_poetry_alias_content (some s)))
        = ensure_poetry_alias_content (some s)
    ∧ (containsAliasKey s = false →
        countAliasLines (ensure_poetry_alias_content (some s)) = 1) := by
  have hskip : ∀ t : String, containsAliasKey t = true →
      ensure_poetry_alias_content (some t) = t := by
    intro t ht
    simp [ensure_poetry_alias_content, ht]
  have happend : ∀ t : String, containsAliasKey t = false →
      countAliasLines (ensure_poetry_alias_content (some t)) = 1 := by
    intro t ht
    have h0 : countAliasLines t = 0 := (contains_false_iff_count_zero t).mp ht
    have h1 : countFull t.data = 0 := by
      rw [← countAliasLines_eq_countFull]
      exact h0
    have h2 : countFull (rstripNl t).data = 0 := by
      rw [← countFull_rstrip]
      exact h1
    have he : ensure_poetry_alias_content (some t) = appendAliasContent t := by
      simp [ensure_poetry_alias_content, ht]
    rw [he, countAliasLines_eq_countFull, countFull_appendAlias, h2]
  refine ⟨hskip s, ?_, happend s⟩
  by_cases h : containsAliasKey s
  · rw [hskip s h]
    exact hskip s h
  · have h1 := happend s (Bool.eq_false_iff.mpr h)
    have h2 : containsAliasKey (ensure_poetry_alias_content (some s)) = true := by
      cases hb : containsAliasKey (ensure_poetry_alias_content (some s)) with
      | false =>
        exact absurd ((contains_false_iff_count_zero _).mp hb) (by omega)
      | true => rfl
    exact hskip _ h2

/-- Witness for C6: a startup file consisting of "x\n" has no alias line;
after one run of the append step it has exactly one. -/
theorem ensure_poetry_alias_idem_witness :
    countAliasLines (ensure_poetry_alias_content (some "x\n")) = 1 :=
  (ensure_poetry_alias_idem "x\n").2.2 (by decide)

/-- Counterexample to claim C7 as stated: appending to a startup file whose
content is "x\n\n" (two trailing newlines, no alias line) does not preserve
all existing bytes — the old content is not even a leading segment of the
new content, because `content.rstrip("\n")` removed one newline byte. -/
theorem ensure_poetry_alias_drops_bytes :
    containsAliasKey "x\n\n" = false
    ∧ List.isPrefixOf ("x\n\n" : String).data
        (ensure_poetry_alias_content (some "x\n\n")).data = false := by
  decide

/-- Claim C7 (amended): when the finalizer appends, the new content is the
old content with its trailing newlines stripped, followed by one newline,
the alias line and a final newline.  All bytes before the old content's
trailing newline run are preserved unchanged and in order, but a run of
two or more trailing newlines is collapsed to one (and a missing final
newline is added).  In particular, when the old content ends in exactly
one newline, the mutation is exactly the addition of one line at the end. -/
theorem ensure_poetry_alias_appends (s : String)
    (h : containsAliasKey s = false) :
    (ensure_poetry_alias_content (some s)).data
      = (rstripNl s).data ++ '\n' :: (alias_line.data ++ ['\n'])
    ∧ (∃ k : Nat, s.data = (rstripNl s).data ++ List.replicate k '\n')
    ∧ (s.data = (rstripNl s).data ++ ['\n'] →
        (ensure_poetry_alias_content (some s)).data
          = s.data ++ (alias_line.data ++ ['\n'])) := by
  have he : ensure_poetry_alias_content (some s) = appendAliasContent s := by
    simp [ensure_poetry_alias_content, h]
  refine ⟨?_, rstripNl_decomp s, ?_⟩
  · rw [he, appendAliasContent_data]
  · intro hone
    rw [he, appendAliasContent_data, hone]
    simp

/-- Witness for C7 (amended): the startup file "x\n" ends in exactly one
newline, and the append step extends it by exactly the alias line. -/
theorem ensure_poetry_alias_appends_witness :
    (ensure_poetry_alias_content (some "x\n")).data
      = (rstripNl "x\n").data ++ '\n' :: (alias_line.data ++ ['\n'])
    ∧ (∃ k : Nat, ("x\n" : String).data
        = (rstripNl "x\n").data ++ List.replicate k '\n')
    ∧ (("x\n" : String).data = (rstripNl "x\n").data ++ ['\n'] →
        (ensure_poetry_alias_content (some "x\n")).data
          = ("x\n" : String).data ++ (alias_line.data ++ ['\n'])) :=
  ensure_poetry_alias_appends "x\n" (by decide)

/-! ### Environment probing and prerequisite validation
(src lines 75-100 and 126-150) -/

/-- External tools the script checks for. -/
inductive Tool
  | pyenv
  | pyenvVirtualenv
  | poetry
deriving DecidableEq, Repr

/-- Raw host state observed by the probes: whether `pyenv` and `poetry`
resolve on the search path, and whether the `pyenv virtualenvs` subcommand
would exit successfully (the plugin works). -/
structure ToolState where
  pyenvOnPath : Bool
  pluginOk : Bool
  poetryOnPath : Bool
deriving DecidableEq, Repr

/-- Model of `check_pyenv` (src lines 79-80). -/
def check_pyenv (ts : ToolState) : Bool := ts.pyenvOnPath

/-- Model of `check_pyenv_virtualenv` (src lines 83-96): returns False
immediately when pyenv itself is absent, otherwise reports whether
`pyenv virtualenvs` exits successfully. -/
def check_pyenv_virtualenv (ts : ToolState) : Bool :=
  if check_pyenv ts = false then false else ts.pluginOk

/-- Model of `check_poetry` (src lines 99-100). -/
def check_poetry (ts : ToolState) : Bool := ts.poetryOnPath

/-- The host profile's available-tools set, as established by the probes. -/
def availableTools (ts : ToolState) : Tool → Bool
  | Tool.pyenv => check_pyenv ts
  | Tool.pyenvVirtualenv => check_pyenv_virtualenv ts
  | Tool.poetry => check_poetry ts

/-- Declared required tools of each workflow: option "1" is pyenv + Poetry,
option "2" is pyenv + pyenv-virtualenv (src lines 133-144). -/
def requiredTools (option : String) : List Tool :=
  if option = "1" then [Tool.pyenv, Tool.poetry]
  else if option = "2" then [Tool.pyenv, Tool.pyenvVirtualenv]
  else [Tool.pyenv]

/-- Model of `ensure_prereqs` (src lines 126-150): returns the overall
verdict together with the list of tools reported as missing, in the order
the script prints them. -/
def ensure_prereqs (option : String) (ts : ToolState) : Bool × List Tool :=
  let has_pyenv := check_pyenv ts
  let has_pyenv_venv := check_pyenv_virtualenv ts
  let has_poetry := check_poetry ts
  let base : Bool × List Tool :=
    if has_pyenv then (true, []) else (false, [Tool.pyenv])
  if option = "1" then
    if has_poetry then base else (false, base.2 ++ [Tool.poetry])
  else if option = "2" then
    if has_pyenv_venv then base else (false, base.2 ++ [Tool.pyenvVirtualenv])
  else base

/-- Claim C3: for both workflows and every host profile, `ensure_prereqs`
fails if and only if the profile's available tools lack at least one of the
workflow's declared required tools, and the reported missing list names
exactly the missing required tools (no false positives or negatives). -/
theorem ensure_prereqs_exact (option : String)
    (hopt : option = "1" ∨ option = "2") (ts : ToolState) :
    ((ensure_prereqs option ts).1 = false
      ↔ ∃ t ∈ requiredTools option, availableTools ts t = false)
    ∧ (ensure_prereqs option ts).2
        = (requiredTools option).filter (fun t => !(availableTools ts t)) := by
  rcases hopt with h | h <;> subst h <;>
    rcases ts with ⟨p, v, q⟩ <;> cases p <;> cases v <;> cases q <;>
    exact ⟨by decide, by decide⟩

/-- Witness for C3: on a host where pyenv is absent (and hence the
pyenv-virtualenv probe also fails), workflow "2" fails and reports exactly
pyenv and pyenv-virtualenv. -/
theorem ensure_prereqs_exact_witness :
    ((ensure_prereqs "2" ⟨false, true, true⟩).1 = false
      ↔ ∃ t ∈ requiredTools "2",
          availableTools ⟨false, true, true⟩ t = false)
    ∧ (ensure_prereqs "2" ⟨false, true, true⟩).2
        = (requiredTools "2").filter
            (fun t => !(availableTools ⟨false, true, true⟩ t)) :=
  ensure_prereqs_exact "2" (Or.inr rfl) ⟨false, true, true⟩

/-! ### The template catalog

Each generated file is represented by a `Payload` constructor carrying
exactly the parameter strings the source interpolates into that file's
content.  Only four payloads are parameterized (src f-strings at lines
197, 274, 302 and 1639); every other payload is a fixed text block, which
the spec treats as an opaque pass-through. -/

/-- Rendered content of one catalog entry, at the granularity of the
parameters the source interpolates into it. -/
inductive Payload
  | flaskenv
  | dotenv
  | gitignore
  | gitattributes
  | license (author : String)
  | readme (projectName description : String)
  | contributing
  | codeOfConduct
  | configPy
  | appInit
  | mainPy
  | modelsPy
  | authForms
  | mainForms
  | emailPy
  | errorsInit
  | errorsHandlers
  | utilsInit
  | decoratorsPy
  | mainInit
  | mainRoutes
  | authInit
  | authEmail
  | authRoutes
  | adminInit
  | adminRoutes
  | baseHtml
  | flashMessages
  | footerHtml
  | publicNavbar
  | dashboardNavbar
  | indexHtml
  | contactHtml
  | loginHtml
  | registerHtml
  | requestResetHtml
  | resetPasswordHtml
  | dashboardHtml
  | err404Public
  | err404Dashboard
  | err500Public
  | err500Dashboard
  | resetPasswordTxt
  | resetPasswordHtmlEmail
  | mainCss
  | dashboardCss
  | mainJs
  | dashboardJs
  | gitkeep
  | requirementsTxt
  | pyproject (name version description authorName authorEmail
      requiresPython : String)

/-- Ambient host state readable during scaffolding.  The only ambient value
the scaffold functions read is `platform.python_version()` (src line 272). -/
structure Ambient where
  pythonVersion : String
deriving DecidableEq, Repr

/-- Exact bytes of the rendered LICENSE content (src lines 272-297, after
`textwrap.dedent`): a function of the author parameter alone — the local
`year` variable of the source is computed from the Python version but never
interpolated into the text. -/
def license_content (author : String) : String :=
  "\nMIT License\n\nCopyright (c) " ++ author ++
  "\n\nPermission is hereby granted, free of charge, to any person obtaining a copy\n" ++
  "of this software and associated documentation files (the \"Software\"), to deal\n" ++
  "in the Software without restriction, including without limitation the rights\n" ++
  "to use, copy, modify, merge, publish, distribute, sublicense, and/or sell\n" ++
  "copies of the Software, and to permit persons to whom the Software is\n" ++
  "furnished to do so, subject to the following conditions:\n\n" ++
  "The above copyright notice and this permission notice shall be included in all\n" ++
  "copies or substantial portions of the Software.\n\n" ++
  "THE SOFTWARE IS PROVIDED \"AS IS\", WITHOUT WARRANTY OF ANY KIND, EXPRESS OR\n" ++
  "IMPLIED, INCLUDING BUT NOT LIMITED TO THE WARRANTIES OF MERCHANTABILITY,\n" ++
  "FITNESS FOR A PARTICULAR PURPOSE AND NONINFRINGEMENT. IN NO EVENT SHALL THE\n" ++
  "AUTHORS OR COPYRIGHT HOLDERS BE LIABLE FOR ANY CLAIM, DAMAGES OR OTHER\n" ++
  "LIABILITY, WHETHER IN AN ACTION OF CONTRACT, TORT OR OTHERWISE, ARISING FROM,\n" ++
  "OUT OF OR IN CONNECTION WITH THE SOFTWARE OR THE USE OR OTHER DEALINGS IN THE\n" ++
  "SOFTWARE.\n"

/-- Model of `scaffold_top_level_files` (src lines 192-547): the top-level
catalog entries in write order, as pairs of project-relative path and
payload.  The `year` local of the source (src line 272) reads the ambient
Python version but is not interpolated into any payload; `use_poetry` is a
parameter of the source function that its body never uses. -/
def scaffold_top_level_files (amb : Ambient)
    (project_name description author : String) (use_poetry : Bool) :
    List (String × Payload) :=
  let year := amb.pythonVersion
  [(".flaskenv", Payload.flaskenv),
   (".env", Payload.dotenv),
   (".gitignore", Payload.gitignore),
   (".gitattributes", Payload.gitattributes),
   ("LICENSE", Payload.license author),
   ("README.md", Payload.readme project_name description),
   ("CONTRIBUTING.md", Payload.contributing),
   ("CODE_OF_CONDUCT.md", Payload.codeOfConduct)]

/-- Model of `scaffold_config_and_main` (src lines 550-733). -/
def scaffold_config_and_main : List (String × Payload) :=
  [("config.py", Payload.configPy),
   ("app/__init__.py", Payload.appInit),
   ("main.py", Payload.mainPy)]

/-- Model of `scaffold_models_forms_email_errors` (src lines 736-932). -/
def scaffold_models_forms_email_errors : List (String × Payload) :=
  [("app/models.py", Payload.modelsPy),
   ("app/auth/forms.py", Payload.authForms),
   ("app/main/forms.py", Payload.mainForms),
   ("app/email.py", Payload.emailPy),
   ("app/errors/__init__.py", Payload.errorsInit),
   ("app/errors/handlers.py", Payload.errorsHandlers)]

/-- Model of `scaffold_utils` (src lines 935-973). -/
def scaffold_utils : List (String × Payload) :=
  [("app/utils/__init__.py", Payload.utilsInit),
   ("app/utils/decorators.py", Payload.decoratorsPy)]

/-- Model of `scaffold_routes` (src lines 976-1143). -/
def scaffold_routes : List (String × Payload) :=
  [("app/main/__init__.py", Payload.mainInit),
   ("app/main/routes.py", Payload.mainRoutes),
   ("app/auth/__init__.py", Payload.authInit),
   ("app/auth/email.py", Payload.authEmail),
   ("app/auth/routes.py", Payload.authRoutes),
   ("app/admin/__init__.py", Payload.adminInit),
   ("app/admin/routes.py", Payload.adminRoutes)]

/-- Model of `scaffold_templates` (src lines 1146-1542). -/
def scaffold_templates : List (String × Payload) :=
  [("app/templates/base.html", Payload.baseHtml),
   ("app/templates/partials/_flash_messages.html", Payload.flashMessages),
   ("app/templates/partials/_footer.html", Payload.footerHtml),
   ("app/templates/partials/_public_navbar.html", Payload.publicNavbar),
   ("app/templates/partials/_dashboard_navbar.html", Payload.dashboardNavbar),
   ("app/templates/main/index.html", Payload.indexHtml),
   ("app/templates/main/contact.html", Payload.contactHtml),
   ("app/templates/auth/login.html", Payload.loginHtml),
   ("app/templates/auth/register.html", Payload.registerHtml),
   ("app/templates/auth/request_password_reset.html", Payload.requestResetHtml),
   ("app/templates/auth/reset_password.html", Payload.resetPasswordHtml),
   ("app/templates/dashboard/dashboard.html", Payload.dashboardHtml),
   ("app/templates/errors/404_public.html", Payload.err404Public),
   ("app/templates/errors/404_dashboard.html", Payload.err404Dashboard),
   ("app/templates/errors/500_public.html", Payload.err500Public),
   ("app/templates/errors/500_dashboard.html", Payload.err500Dashboard),
   ("app/templates/emails/reset_password.txt", Payload.resetPasswordTxt),
   ("app/templates/emails/reset_password.html", Payload.resetPasswordHtmlEmail)]

/-- Model of `scaffold_static` (src lines 1545-1604). -/
def scaffold_static : List (String × Payload) :=
  [("app/static/css/main.css", Payload.mainCss),
   ("app/static/css/dashboard.css", Payload.dashboardCss),
   ("app/static/js/main.js", Payload.mainJs),
   ("app/static/js/dashboard.js", Payload.dashboardJs),
   ("app/static/img/.gitkeep", Payload.gitkeep)]

/-- Model of `write_requirements` (src lines 1607-1621). -/
def write_requirements : List (String × Payload) :=
  [("requirements.txt", Payload.requirementsTxt)]

/-- The `authors` field value of the rendered pyproject.toml
(src line 1636): includes the email only when it is non-empty. -/
def pyprojectAuthorsField (author_name author_email : String) : String :=
  if author_email ≠ "" then
    "\x7bname = \"" ++ author_name ++ "\", email = \"" ++ author_email ++ "\"\x7d"
  else
    "\x7bname = \"" ++ author_name ++ "\"\x7d"

/-- Exact bytes of the rendered pyproject.toml (src lines 1638-1659).  The
first line of the source f-string is unindented, so `textwrap.dedent`
removes no margin; the whitespace-only final line is normalized to empty.
The `license_id` parameter of `write_poetry_files` is accepted but never
interpolated: the license field is the fixed file reference. -/
def pyproject_content (poetry_name poetry_version poetry_description
    author_name author_email license_id requires_python : String) : String :=
  "[project]\n" ++
  "        name = \"" ++ poetry_name ++ "\"\n" ++
  "        version = \"" ++ poetry_version ++ "\"\n" ++
  "        description = \"" ++ poetry_description ++ "\"\n" ++
  "        authors = [\n" ++
  "            " ++ pyprojectAuthorsField author_name author_email ++ "\n" ++
  "        ]\n" ++
  "        license = \x7bfile = \"LICENSE\"\x7d\n" ++
  "        readme = \"README.md\"\n" ++
  "        requires-python = \"" ++ requires_python ++ "\"\n" ++
  "        dependencies = []\n" ++
  "\n\n" ++
  "        [build-system]\n" ++
  "        requires = [\"poetry-core>=2.0.0,<3.0.0\"]\n" ++
  "        build-backend = \"poetry.core.masonry.api\"\n" ++
  "\n" ++
  "        [tool.poetry]\n" ++
  "        package-mode = false\n"

/-- Model of `write_poetry_files` (src lines 1624-1660): the single catalog
entry it writes.  The `license_id` argument is accepted but does not flow
into the payload, mirroring the source where the f-string never references
it. -/
def write_poetry_files (poetry_name poetry_version poetry_description
    author_name author_email license_id requires_python : String) :
    List (String × Payload) :=
  [("pyproject.toml", Payload.pyproject poetry_name poetry_version
      poetry_description author_name author_email requires_python)]

/-- All catalog entries written by the seven scaffold calls of `main`
(src lines 1727-1733), in order. -/
def all_scaffold_writes (amb : Ambient)
    (project_name description author : String) (use_poetry : Bool) :
    List (String × Payload) :=
  scaffold_top_level_files amb project_name description author use_poetry
    ++ scaffold_config_and_main
    ++ scaffold_models_forms_email_errors
    ++ scaffold_utils
    ++ scaffold_routes
    ++ scaffold_templates
    ++ scaffold_static

/-! ### Interactive prompts, directory resolution and the driver `main`
(src lines 153-183 and 1698-1774) -/

/-- Model of `prompt_choice` (src lines 153-162): consume scripted input
lines until one (stripped) is among the recognized keys; `none` models
end-of-input (Python would raise `EOFError`). -/
def prompt_choice (choices : List String) :
    List String → Option (String × List String)
  | [] => none
  | v :: rest =>
    let s := pyStrip v
    if s ∈ choices then some (s, rest) else prompt_choice choices rest

/-- Model of `prompt_with_default` (src lines 165-167): strip the input
line and substitute the default when it is empty. -/
def prompt_with_default (dflt : String) :
    List String → Option (String × List String)
  | [] => none
  | v :: rest =>
    let s := pyStrip v
    some (if s = "" then dflt else s, rest)

/-- State of the target directory `home / project_name` before the run. -/
inductive DirState
  | absent
  | emptyDir
  | nonEmpty
deriving DecidableEq, Repr

/-- Result of `ensure_project_dir` (src lines 170-183) on the scripted
input: either the run proceeds (consuming an answer only in the conflict
case), aborts with exit code 1, or hits end-of-input at the conflict
prompt. -/
inductive DirResolution
  | proceed (inputs : List String)
  | abortConflict
  | eofAtPrompt
deriving DecidableEq, Repr

/-- Model of `ensure_project_dir` (src lines 170-183): on a non-empty
existing directory the script asks "abort? [Y/n]" and exits with code 1
exactly when the stripped, lowercased answer is "", "y" or "yes"; every
other answer proceeds into the directory. -/
def ensure_project_dir (dir : DirState) (inputs : List String) :
    DirResolution :=
  match dir with
  | DirState.nonEmpty =>
    match inputs with
    | [] => DirResolution.eofAtPrompt
    | v :: rest =>
      if pyLower (pyStrip v) ∈ (["", "y", "yes"] : List String) then
        DirResolution.abortConflict
      else
        DirResolution.proceed rest
  | _ => DirResolution.proceed inputs

/-- How each run of `main` ended. -/
inductive Outcome
  | quitAtMenu
  | prereqAbort
  | conflictAbort
  | success
  | eofCrash
  | finalizerCrash
deriving DecidableEq, Repr

/-- Observable result of one run of `main`: the process exit code (0 for
normal return, the argument of `sys.exit`, or 1 for an unhandled
exception), the classified outcome, the files written under the home
directory, and the shell startup file content afterwards. -/
structure RunResult where
  exitCode : Nat
  outcome : Outcome
  writes : List (String × Payload)
  rcAfter : Option String

/-- Host configuration read by one run: probe results, ambient Python
version, the shell startup file's prior content (`none` when absent) and
whether writing that file succeeds. -/
structure HostConfig where
  tools : ToolState
  ambient : Ambient
  rcContent : Option String
  rcWritable : Bool
deriving DecidableEq, Repr

/-- One run of `ensure_poetry_alias` against the startup file
(src lines 1682-1694): `some newContent` is the file content after a
successful step (unchanged when an alias line is already present), `none`
models `write_text` raising `OSError` on an unwritable file. -/
def ensure_poetry_alias_step (rcContent : Option String) (rcWritable : Bool) :
    Option (Option String) :=
  match rcContent with
  | some c =>
    if containsAliasKey c then some (some c)
    else if rcWritable then some (some (appendAliasContent c))
    else none
  | none =>
    if rcWritable then some (some (appendAliasContent "")) else none

/-- The writes of the whole catalog with paths made home-relative by
prefixing the project directory name. -/
def project_writes (amb : Ambient)
    (project_name description author : String) (use_poetry : Bool) :
    List (String × Payload) :=
  (all_scaffold_writes amb project_name description author use_poetry).map
    (fun pc => (project_name ++ "/" ++ pc.1, pc.2))

/-- Everything `main` does after the project directory is resolved
(src lines 1723-1760): the seven scaffold calls, then either the Poetry
metadata prompts, pyproject write and alias step, or the requirements
write. -/
def scaffold_and_finish (host : HostConfig)
    (option project_name description author : String)
    (inputs : List String) : RunResult :=
  let use_poetry := option = "1"
  let baseWrites :=
    project_writes host.ambient project_name description author use_poetry
  if use_poetry then
    match prompt_with_default project_name inputs with
    | none => ⟨1, Outcome.eofCrash, baseWrites, host.rcContent⟩
    | some (poetry_name, i1) =>
    match prompt_with_default "0.1.0" i1 with
    | none => ⟨1, Outcome.eofCrash, baseWrites, host.rcContent⟩
    | some (poetry_version, i2) =>
    match prompt_with_default description i2 with
    | none => ⟨1, Outcome.eofCrash, baseWrites, host.rcContent⟩
    | some (poetry_description, i3) =>
    match prompt_with_default author i3 with
    | none => ⟨1, Outcome.eofCrash, baseWrites, host.rcContent⟩
    | some (author_name, i4) =>
    match prompt_with_default "you@example.com" i4 with
    | none => ⟨1, Outcome.eofCrash, baseWrites, host.rcContent⟩
    | some (author_email, i5) =>
    match prompt_with_default "MIT" i5 with
    | none => ⟨1, Outcome.eofCrash, baseWrites, host.rcContent⟩
    | some (license_id, i6) =>
    match prompt_with_default ">=3.10,<4.0" i6 with
    | none => ⟨1, Outcome.eofCrash, baseWrites, host.rcContent⟩
    | some (requires_python, _) =>
      let writes := baseWrites ++
        (write_poetry_files poetry_name poetry_version poetry_description
            author_name author_email license_id requires_python).map
          (fun pc => (project_name ++ "/" ++ pc.1, pc.2))
      match ensure_poetry_alias_step host.rcContent host.rcWritable with
      | some rcAfter => ⟨0, Outcome.success, writes, rcAfter⟩
      | none => ⟨1, Outcome.finalizerCrash, writes, host.rcContent⟩
  else
    ⟨0, Outcome.success,
      baseWrites ++ write_requirements.map
        (fun pc => (project_name ++ "/" ++ pc.1, pc.2)),
      host.rcContent⟩

/-- Continuation of `main` after `ensure_project_dir` (src line 1721). -/
def after_dir (host : HostConfig)
    (option project_name description author : String)
    (res : DirResolution) : RunResult :=
  match res with
  | DirResolution.eofAtPrompt => ⟨1, Outcome.eofCrash, [], host.rcContent⟩
  | DirResolution.abortConflict =>
    ⟨1, Outcome.conflictAbort, [], host.rcContent⟩
  | DirResolution.proceed rest =>
    scaffold_and_finish host option project_name description author rest

/-- Model of `main` (src lines 1698-1774) over a scripted input list:
workflow menu (keys "1", "2", "q"; `sys.exit(0)` on "q"), prerequisite
gate (`sys.exit(1)` on failure), the three base parameter prompts,
directory resolution, scaffolding and the workflow finalizer. -/
def mainRun (host : HostConfig) (dir : DirState) (inputs : List String) :
    RunResult :=
  match prompt_choice ["1", "2", "q"] inputs with
  | none => ⟨1, Outcome.eofCrash, [], host.rcContent⟩
  | some (option, i1) =>
    if option = "q" then ⟨0, Outcome.quitAtMenu, [], host.rcContent⟩
    else if (ensure_prereqs option host.tools).1 = false then
      ⟨1, Outcome.prereqAbort, [], host.rcContent⟩
    else
      match prompt_with_default "flask_project" i1 with
      | none => ⟨1, Outcome.eofCrash, [], host.rcContent⟩
      | some (project_name, i2) =>
      match prompt_with_default "A starter Flask application." i2 with
      | none => ⟨1, Outcome.eofCrash, [], host.rcContent⟩
      | some (description, i3) =>
      match prompt_with_default "Your Name" i3 with
      | none => ⟨1, Outcome.eofCrash, [], host.rcContent⟩
      | some (author, i4) =>
        after_dir host option project_name description author
          (ensure_project_dir dir i4)

/-! ### Concrete hosts used by the scenario claims -/

/-- A host with every probed tool available, a writable startup file that
does not exist yet, and an arbitrary concrete Python version. -/
def hostAll : HostConfig := ⟨⟨true, true, true⟩, ⟨"3.12.0"⟩, none, true⟩

/-- Claim C5: rendering is a pure function of the collected parameters.
The whole catalog output is independent of the ambient host state (the
Python-version read at src line 272 is never interpolated), both before
and after path resolution, and the LICENSE entry's payload carries only
the author parameter. -/
theorem scaffold_render_pure (amb1 amb2 : Ambient) (n d a : String)
    (u : Bool) :
    all_scaffold_writes amb1 n d a u = all_scaffold_writes amb2 n d a u
    ∧ project_writes amb1 n d a u = project_writes amb2 n d a u
    ∧ ("LICENSE", Payload.license a) ∈ scaffold_top_level_files amb1 n d a u := by
  refine ⟨rfl, rfl, ?_⟩
  simp [scaffold_top_level_files]

/-- Claim C9: the scenario run — workflow "2" (requirements), project name
"blog", empty home directory — exits with code 0 and writes (at least)
requirements.txt, .env, .flaskenv, app/__init__.py, main.py and config.py
under blog/. -/
theorem blog_requirements_scenario :
    (mainRun hostAll DirState.absent ["2", "blog", "", ""]).exitCode = 0
    ∧ (mainRun hostAll DirState.absent ["2", "blog", "", ""]).outcome
        = Outcome.success
    ∧ "blog/requirements.txt" ∈ (mainRun hostAll DirState.absent
        ["2", "blog", "", ""]).writes.map Prod.fst
    ∧ "blog/.env" ∈ (mainRun hostAll DirState.absent
        ["2", "blog", "", ""]).writes.map Prod.fst
    ∧ "blog/.flaskenv" ∈ (mainRun hostAll DirState.absent
        ["2", "blog", "", ""]).writes.map Prod.fst
    ∧ "blog/app/__init__.py" ∈ (mainRun hostAll DirState.absent
        ["2", "blog", "", ""]).writes.map Prod.fst
    ∧ "blog/main.py" ∈ (mainRun hostAll DirState.absent
        ["2", "blog", "", ""]).writes.map Prod.fst
    ∧ "blog/config.py" ∈ (mainRun hostAll DirState.absent
        ["2", "blog", "", ""]).writes.map Prod.fst := by
  decide

/-- Counterexample to claim C1 as stated: at the conflict prompt the
response "x" is not an explicit consent to continue (it is neither "n" nor
"no"), yet the run does not terminate — it proceeds and writes into the
directory, exiting 0. -/
theorem conflict_ambiguous_response_proceeds :
    pyLower (pyStrip "x") ∉ (["n", "no"] : List String)
    ∧ (mainRun hostAll DirState.nonEmpty
        ["2", "blog", "", "", "x"]).exitCode = 0
    ∧ (mainRun hostAll DirState.nonEmpty
        ["2", "blog", "", "", "x"]).outcome = Outcome.success
    ∧ (mainRun hostAll DirState.nonEmpty
        ["2", "blog", "", "", "x"]).writes ≠ [] := by
  refine ⟨by decide, by decide, by decide, fun h => ?_⟩
  exact absurd (congrArg List.length h) (by decide)

/-- Claim C1 (amended): on a non-empty target directory the run aborts
(exit code 1, zero writes) exactly when the stripped, lowercased conflict
answer is empty, "y" or "yes"; every other answer — including ambiguous
ones — proceeds and writes into the directory. -/
theorem conflict_abort_iff (answer : String) :
    (pyLower (pyStrip answer) ∈ (["", "y", "yes"] : List String) →
      (mainRun hostAll DirState.nonEmpty
          ["2", "blog", "", "", answer]).exitCode = 1
      ∧ (mainRun hostAll DirState.nonEmpty
          ["2", "blog", "", "", answer]).outcome = Outcome.conflictAbort
      ∧ (mainRun hostAll DirState.nonEmpty
          ["2", "blog", "", "", answer]).writes = [])
    ∧ (pyLower (pyStrip answer) ∉ (["", "y", "yes"] : List String) →
      (mainRun hostAll DirState.nonEmpty
          ["2", "blog", "", "", answer]).exitCode = 0
      ∧ (mainRun hostAll DirState.nonEmpty
          ["2", "blog", "", "", answer]).outcome = Outcome.success
      ∧ (mainRun hostAll DirState.nonEmpty
          ["2", "blog", "", "", answer]).writes ≠ []) := by
  have e : mainRun hostAll DirState.nonEmpty ["2", "blog", "", "", answer]
      = after_dir hostAll "2" "blog" "A starter Flask application."
          "Your Name" (ensure_project_dir DirState.nonEmpty [answer]) := rfl
  have e2 : ensure_project_dir DirState.nonEmpty [answer]
      = if pyLower (pyStrip answer) ∈ (["", "y", "yes"] : List String) then
          DirResolution.abortConflict
        else DirResolution.proceed [] := rfl
  constructor
  · intro h
    rw [e, e2, if_pos h]
    exact ⟨rfl, rfl, rfl⟩
  · intro h
    rw [e, e2, if_neg h]
    refine ⟨rfl, rfl, fun hw => ?_⟩
    exact absurd (congrArg List.length hw) (by decide)

/-- Witness for C1 (amended): the explicit answer "no" proceeds into the
non-empty directory and the scaffold completes with exit code 0. -/
theorem conflict_abort_iff_witness :
    (mainRun hostAll DirState.nonEmpty
        ["2", "blog", "", "", "no"]).exitCode = 0
    ∧ (mainRun hostAll DirState.nonEmpty
        ["2", "blog", "", "", "no"]).outcome = Outcome.success
    ∧ (mainRun hostAll DirState.nonEmpty
        ["2", "blog", "", "", "no"]).writes ≠ [] :=
  (conflict_abort_iff "no").2 (by decide)

/-! ### Exit-code mapping (claim C2) -/

theorem scaffold_and_finish_exit (host : HostConfig)
    (o n d a : String) (inputs : List String) :
    ((scaffold_and_finish host o n d a inputs).outcome = Outcome.success →
      (scaffold_and_finish host o n d a inputs).exitCode = 0)
    ∧ ((scaffold_and_finish host o n d a inputs).outcome = Outcome.prereqAbort →
      (scaffold_and_finish host o n d a inputs).exitCode = 1)
    ∧ ((scaffold_and_finish host o n d a inputs).outcome = Outcome.conflictAbort →
      (scaffold_and_finish host o n d a inputs).exitCode = 1)
    ∧ ((scaffold_and_finish host o n d a inputs).outcome = Outcome.quitAtMenu →
      (scaffold_and_finish host o n d a inputs).exitCode = 0) := by
  unfold scaffold_and_finish
  dsimp only
  repeat' split
  all_goals simp

theorem after_dir_exit (host : HostConfig) (o n d a : String)
    (res : DirResolution) :
    ((after_dir host o n d a res).outcome = Outcome.success →
      (after_dir host o n d a res).exitCode = 0)
    ∧ ((after_dir host o n d a res).outcome = Outcome.prereqAbort →
      (after_dir host o n d a res).exitCode = 1)
    ∧ ((after_dir host o n d a res).outcome = Outcome.conflictAbort →
      (after_dir host o n d a res).exitCode = 1)
    ∧ ((after_dir host o n d a res).outcome = Outcome.quitAtMenu →
      (after_dir host o n d a res).exitCode = 0) := by
  cases res with
  | proceed rest => exact scaffold_and_finish_exit host o n d a rest
  | abortConflict => simp [after_dir]
  | eofAtPrompt => simp [after_dir]

/-- Claim C2: the process exit code is 0 on a successful scaffold, 1 on a
prerequisite-failure abort, 1 on a directory-conflict abort, and 0 on quit
at the workflow menu — for every run of `main`. -/
theorem exit_code_mapping (host : HostConfig) (dir : DirState)
    (inputs : List String) :
    ((mainRun host dir inputs).outcome = Outcome.success →
      (mainRun host dir inputs).exitCode = 0)
    ∧ ((mainRun host dir inputs).outcome = Outcome.prereqAbort →
      (mainRun host dir inputs).exitCode = 1)
    ∧ ((mainRun host dir inputs).outcome = Outcome.conflictAbort →
      (mainRun host dir inputs).exitCode = 1)
    ∧ ((mainRun host dir inputs).outcome = Outcome.quitAtMenu →
      (mainRun host dir inputs).exitCode = 0) := by
  unfold mainRun
  repeat' split
  all_goals first
    | exact after_dir_exit _ _ _ _ _ _
    | simp

/-- Witness for C2: quitting at the menu exits with code 0. -/
theorem exit_code_mapping_witness :
    (mainRun hostAll DirState.absent ["q"]).exitCode = 0 :=
  (exit_code_mapping hostAll DirState.absent ["q"]).2.2.2 (by decide)

/-! ### Finalizer failure (claim C8) -/

/-- The startup-file content has no existing alias line (so the alias step
will attempt a write). -/
def rcLacksAlias : Option String → Bool
  | some c => !containsAliasKey c
  | none => true

theorem alias_step_fails (rc : Option String) (h : rcLacksAlias rc = true) :
    ensure_poetry_alias_step rc false = none := by
  cases rc with
  | none => rfl
  | some c =>
    have hc : containsAliasKey c = false := by
      simpa [rcLacksAlias] using h
    simp [ensure_poetry_alias_step, hc]

/-- The scripted inputs of the Poetry scenario: workflow "1", project name
"blog", defaults everywhere else. -/
def poetryInputs : List String :=
  ["1", "blog", "", "", "", "", "", "", "", "", ""]

/-- The full write set of the Poetry scenario run. -/
def poetryBlogWrites : List (String × Payload) :=
  project_writes ⟨"3.12.0"⟩ "blog" "A starter Flask application."
      "Your Name" true
    ++ (write_poetry_files "blog" "0.1.0" "A starter Flask application."
        "Your Name" "you@example.com" "MIT" ">=3.10,<4.0").map
      (fun pc => ("blog/" ++ pc.1, pc.2))

/-- Counterexample to claim C8 as stated: with an unwritable (absent)
startup file, the alias-append failure is not caught — the run ends with
exit code 1, not 0, even though every project file (50 of them, including
pyproject.toml) was already written. -/
theorem finalizer_failure_crashes :
    (mainRun ⟨⟨true, true, true⟩, ⟨"3.12.0"⟩, none, false⟩
        DirState.absent poetryInputs).exitCode = 1
    ∧ (mainRun ⟨⟨true, true, true⟩, ⟨"3.12.0"⟩, none, false⟩
        DirState.absent poetryInputs).outcome = Outcome.finalizerCrash
    ∧ (mainRun ⟨⟨true, true, true⟩, ⟨"3.12.0"⟩, none, false⟩
        DirState.absent poetryInputs).writes.length = 50
    ∧ "blog/pyproject.toml" ∈ (mainRun ⟨⟨true, true, true⟩, ⟨"3.12.0"⟩,
        none, false⟩ DirState.absent poetryInputs).writes.map Prod.fst := by
  decide

/-- Claim C8 (amended): a failing alias write happens only after the
project directory is fully materialized — for every startup-file content
without an existing alias line, the run has already produced the complete
write set (all 50 catalog files, pyproject.toml included) — but the
failure is not caught: the run terminates with exit code 1 instead of
reporting success. -/
theorem finalizer_failure_after_materialize (rc : Option String)
    (h : rcLacksAlias rc = true) :
    (mainRun ⟨⟨true, true, true⟩, ⟨"3.12.0"⟩, rc, false⟩
        DirState.absent poetryInputs).exitCode = 1
    ∧ (mainRun ⟨⟨true, true, true⟩, ⟨"3.12.0"⟩, rc, false⟩
        DirState.absent poetryInputs).outcome = Outcome.finalizerCrash
    ∧ (mainRun ⟨⟨true, true, true⟩, ⟨"3.12.0"⟩, rc, false⟩
        DirState.absent poetryInputs).writes = poetryBlogWrites
    ∧ poetryBlogWrites.length = 50
    ∧ "blog/pyproject.toml" ∈ poetryBlogWrites.map Prod.fst := by
  have key : mainRun ⟨⟨true, true, true⟩, ⟨"3.12.0"⟩, rc, false⟩
      DirState.absent poetryInputs
      = (match ensure_poetry_alias_step rc false with
         | some rcAfter => ⟨0, Outcome.success, poetryBlogWrites, rcAfter⟩
         | none => ⟨1, Outcome.finalizerCrash, poetryBlogWrites, rc⟩) := rfl
  rw [key, alias_step_fails rc h]
  exact ⟨rfl, rfl, rfl, by decide, by decide⟩

/-- Witness for C8 (amended): the theorem instantiated at an absent
startup file. -/
theorem finalizer_failure_after_materialize_witness :
    (mainRun ⟨⟨true, true, true⟩, ⟨"3.12.0"⟩, none, false⟩
        DirState.absent poetryInputs).exitCode = 1
    ∧ (mainRun ⟨⟨true, true, true⟩, ⟨"3.12.0"⟩, none, false⟩
        DirState.absent poetryInputs).outcome = Outcome.finalizerCrash
    ∧ (mainRun ⟨⟨true, true, true⟩, ⟨"3.12.0"⟩, none, false⟩
        DirState.absent poetryInputs).writes = poetryBlogWrites
    ∧ poetryBlogWrites.length = 50
    ∧ "blog/pyproject.toml" ∈ poetryBlogWrites.map Prod.fst :=
  finalizer_failure_after_materialize none (by decide)

/-- Claim C10: the generated output is independent of the collected
license identifier.  Byte-level: the rendered pyproject.toml content is
the same for any two license identifiers (the license field is the fixed
LICENSE-file reference).  Run-level: two otherwise identical Poetry runs
whose license-prompt answers differ produce identical results (same
writes, same exit code, same startup file). -/
theorem pyproject_ignores_license_id (amb : Ambient) (rc : Option String)
    (wr : Bool) (n d a pn pv pd an ae rp l1 l2 : String) :
    pyproject_content pn pv pd an ae l1 rp
      = pyproject_content pn pv pd an ae l2 rp
    ∧ mainRun ⟨⟨true, true, true⟩, amb, rc, wr⟩ DirState.absent
        ["1", n, d, a, pn, pv, pd, an, ae, l1, rp]
      = mainRun ⟨⟨true, true, true⟩, amb, rc, wr⟩ DirState.absent
        ["1", n, d, a, pn, pv, pd, an, ae, l2, rp] :=
  ⟨rfl, rfl⟩
